import Mathlib

/-!
# WayraFrost — verification of the frost-alert decision pipeline

Shallow embedding of the core decision pipeline of the WayraFrost backend
(`backend/api_v2.py` and `backend/sms_service.py`):

* the per-location bounded observation history (`store_weather_data`, a
  `deque(maxlen=24)` per location key);
* the lag-feature synthesizer (`prepare_features_with_lags`);
* the geofence validator (`calculate_distance` by the haversine formula and
  `validate_location` against the Huayao station reference point);
* the risk reconciler (`SMSService._get_combined_classification`);
* the SMS alert compactor (`SMSService.send_frost_alert` and the four
  `_build_*` message builders);
* the coordinate guards of the `/api/validate-location` and
  `/api/predict-enhanced-v2` endpoints, and the `/api/test-sms-length`
  endpoint.

Modelling conventions: Python dicts of weather variables become association
lists `List (String × ℚ)` with `List.lookup`; rational numbers stand in for
Python floats in the data pipeline, and real numbers stand in for floats in
the haversine geometry; temperatures rendered with `"%.1f"`-style formatting
are carried as integers in tenths of a degree so the rendering is exact;
`datetime.now().strftime(...)` and the external weather fetch inside the
out-of-coverage message builders are inputs of the model (fields of the
payload structure).
-/

set_option maxRecDepth 40000
set_option maxHeartbeats 1000000

namespace WayraFrost

/- ====================================================================
   RiskReconciler — `SMSService._get_combined_classification`
   (backend/sms_service.py lines 118–128)
   ==================================================================== -/

/-- The `risk_order` dict of `_get_combined_classification`, including the
`.get(·, 0)` default for names outside the four-level vocabulary. -/
def risk_order (s : String) : Nat :=
  if s = "Sin Riesgo" then 0
  else if s = "Riesgo" then 1
  else if s = "Moderada" then 2
  else if s = "Severa" then 3
  else 0

/-- `SMSService._get_combined_classification`, abstracted over the two class
names already extracted from the payload: `mlClass` is
`ml_prediction_v2.prediction.class_name` (default `"Sin Riesgo"`), `apiClass`
is `ai_analysis.clasificacion_final` (absent fields give `none`; the Python
`if not api_class` guard also treats the empty string as absent). -/
def get_combined_classification (mlClass : String) (apiClass : Option String) : String :=
  match apiClass with
  | none => mlClass
  | some a =>
    if a = "" then mlClass
    else if risk_order mlClass ≤ risk_order a then a else mlClass

/-- The four-level ordinal vocabulary `{0,1,2,3}` as the class names used by
the code (`target_mapping` / `risk_order` vocabulary). -/
def className : Fin 4 → String
  | 0 => "Sin Riesgo"
  | 1 => "Riesgo"
  | 2 => "Moderada"
  | 3 => "Severa"

/- ====================================================================
   HistoryStore — `store_weather_data` (backend/api_v2.py lines 109–122)
   ==================================================================== -/

/-- A weather-variable dict (Python dict of floats), as an association list. -/
abbrev WDict := List (String × ℚ)

/-- `dict.get(k, default)`. -/
def dictGet (d : WDict) (k : String) (dflt : ℚ) : ℚ :=
  (d.lookup k).getD dflt

/-- Capacity of the per-location history: `deque(maxlen=24)`. -/
def HIST_CAP : Nat := 24

/-- One `deque(maxlen=cap).append`: append on the right, evicting from the
left whatever exceeds the capacity. -/
def dequeAppend (cap : Nat) (hist : List α) (e : α) : List α :=
  if cap < (hist ++ [e]).length then (hist ++ [e]).drop ((hist ++ [e]).length - cap)
  else hist ++ [e]

/-- `store_weather_data` for one location key: the entry (already built from
the weather payload; its construction applies unit conversions and wind
direction sine/cosine, which play no role in the buffer discipline) is
appended to that key's `deque(maxlen=24)`.  A key not yet present starts from
the empty history. -/
def store_weather_data (hist : List WDict) (e : WDict) : List WDict :=
  dequeAppend HIST_CAP hist e

/- ====================================================================
   LagFeatureSynthesizer — `prepare_features_with_lags`
   (backend/api_v2.py lines 124–148)
   ==================================================================== -/

/-- The five tracked variables, in the order the code iterates them. -/
def lagVars : List String := ["HR", "radinf", "vel", "dir_sin", "dir_cos"]

/-- The fixed lag horizons, in hours. -/
def lagHorizons : List Nat := [6, 12, 24]

/-- The feature key `f"{var}_lag_{h}h"`. -/
def lagKey (v : String) (h : Nat) : String :=
  v ++ "_lag_" ++ toString h ++ "h"

/-- The lag block of `prepare_features_with_lags` for a single horizon `h`:
`lag_idx = -h if len(history) >= h else (-len(history) if history else None)`,
then `features[key] = history[lag_idx].get(var, features[var])`, falling back
to the current value when the history is empty.  `history[-h]` with
`len ≥ h` is index `len - h`; `history[-len]` is index `0`. -/
def lagBlock (current_data : WDict) (history : List WDict) (h : Nat) : WDict :=
  match history with
  | [] => lagVars.map (fun v => (lagKey v h, dictGet current_data v 0))
  | _ :: _ =>
    let idx := if h ≤ history.length then history.length - h else 0
    let lag_data := history.getD idx []
    lagVars.map (fun v => (lagKey v h, dictGet lag_data v (dictGet current_data v 0)))

/-- `prepare_features_with_lags`: current values of the five variables
(`current_data.get(var, 0)`), then the lag features for horizons 6, 12, 24,
in insertion order (the resulting dict becomes the single-row DataFrame). -/
def prepare_features_with_lags (current_data : WDict) (history : List WDict) : WDict :=
  (lagVars.map (fun v => (v, dictGet current_data v 0)))
    ++ (lagHorizons.map (lagBlock current_data history)).flatten

/- ====================================================================
   Prediction pipeline order — `predict_enhanced_v2` steps 3 and 4
   (backend/api_v2.py lines 246–258)
   ==================================================================== -/

/-- The state-relevant slice of `predict_enhanced_v2` for an admitted
request: step 3 stores the new observation into the location's history
(`store_weather_data`), and only then step 4 computes the lag features from
the (now updated) history (`prepare_features_with_lags`).  Returns the new
history and the synthesized feature dict. -/
def predict_pipeline (hist : List WDict) (entry : WDict) (current_data : WDict) :
    List WDict × WDict :=
  let hist2 := store_weather_data hist entry
  (hist2, prepare_features_with_lags current_data hist2)

/- ====================================================================
   GeofenceValidator — `calculate_distance` / `validate_location`
   (backend/api_v2.py lines 41–90)
   ==================================================================== -/

/-- `math.radians`. -/
noncomputable def radians (x : ℝ) : ℝ := x * Real.pi / 180

/-- `math.atan2 y x` over the reals (the C99 quadrant convention). -/
noncomputable def math_atan2 (y x : ℝ) : ℝ :=
  if 0 < x then Real.arctan (y / x)
  else if x < 0 then
    (if 0 ≤ y then Real.arctan (y / x) + Real.pi else Real.arctan (y / x) - Real.pi)
  else
    (if 0 < y then Real.pi / 2 else if y < 0 then -(Real.pi / 2) else 0)

/-- `calculate_distance`: haversine distance in km between two points, with
Earth radius `R = 6371` and the `atan2` form. -/
noncomputable def calculate_distance (lat1 lon1 lat2 lon2 : ℝ) : ℝ :=
  let R : ℝ := 6371
  let lat1_rad := radians lat1
  let lat2_rad := radians lat2
  let delta_lat := radians (lat2 - lat1)
  let delta_lon := radians (lon2 - lon1)
  let a := Real.sin (delta_lat / 2) ^ 2 +
    Real.cos lat1_rad * Real.cos lat2_rad * Real.sin (delta_lon / 2) ^ 2
  let c := 2 * math_atan2 (Real.sqrt a) (Real.sqrt (1 - a))
  R * c

/-- `STATION_INFO["latitude"]` — Huayao reference station. -/
noncomputable def STATION_LAT : ℝ := -12.0383

/-- `STATION_INFO["longitude"]`. -/
noncomputable def STATION_LON : ℝ := -75.3228

/-- `STATION_INFO["valid_radius_km"]`. -/
noncomputable def VALID_RADIUS_KM : ℝ := 50

/-- Result of `validate_location` (validity and distance; the human-readable
message only interpolates these and is not modelled). -/
structure GeofenceResult where
  is_valid : Prop
  distance_km : ℝ

/-- `validate_location`: distance from the station, valid iff within the
50 km radius (inclusive comparison `distance <= valid_radius_km`). -/
noncomputable def validate_location (latitude longitude : ℝ) : GeofenceResult :=
  let distance := calculate_distance STATION_LAT STATION_LON latitude longitude
  { is_valid := distance ≤ VALID_RADIUS_KM, distance_km := distance }

/- ====================================================================
   Endpoint coordinate guards (backend/api_v2.py lines 176–215)
   ==================================================================== -/

/-- Python truthiness of a JSON number field obtained via `data.get(...)`:
`None` and `0` are falsy. -/
def pyTruthy : Option ℚ → Bool
  | none => false
  | some v => v != 0

/-- Outcome of the coordinate guard shared by `/api/validate-location` and
`/api/predict-enhanced-v2`: either the 400 error response, or the geofence
validation the handler goes on to perform. -/
inductive GuardResp where
  | badRequest (errMsg : String)
  | proceed (v : GeofenceResult)

/-- The guard stage of `validate_location_endpoint`:
`if not latitude or not longitude: return 400`, otherwise the handler calls
`validate_location(latitude, longitude)`. -/
noncomputable def validate_location_endpoint (latitude longitude : Option ℚ) : GuardResp :=
  if pyTruthy latitude && pyTruthy longitude then
    GuardResp.proceed (validate_location ((latitude.getD 0 : ℚ) : ℝ) ((longitude.getD 0 : ℚ) : ℝ))
  else
    GuardResp.badRequest "Latitud y longitud requeridas"

/-- The identical guard stage at the top of `predict_enhanced_v2` (lines
209–218): same falsy test, same error payload, before any geofence work. -/
noncomputable def predict_enhanced_v2_guard (latitude longitude : Option ℚ) : GuardResp :=
  if pyTruthy latitude && pyTruthy longitude then
    GuardResp.proceed (validate_location ((latitude.getD 0 : ℚ) : ℝ) ((longitude.getD 0 : ℚ) : ℝ))
  else
    GuardResp.badRequest "Latitud y longitud requeridas"

/- ====================================================================
   AlertCompactor — `SMSService` message builders and `send_frost_alert`
   (backend/sms_service.py lines 45–295)
   ==================================================================== -/

/-- Python `str.strip()`: drop whitespace from both ends.  (Lean's own
`String.trim` is equivalent on these messages but does not reduce inside the
kernel, so the model spells the list computation out.) -/
def pyStrip (s : String) : String :=
  String.mk (((s.data.dropWhile Char.isWhitespace).reverse.dropWhile Char.isWhitespace).reverse)

/-- Exact rendering of a one-decimal float carried as tenths: `formatTenth 182
= "18.2"`, matching both `f"{18.2}"` and `f"{18.2:.1f}"`. -/
def formatTenth (t : Int) : String :=
  (if t < 0 then "-" else "") ++ toString (t.natAbs / 10) ++ "." ++ toString (t.natAbs % 10)

/-- One hour of `hourly_forecast`: `temperature` in tenths of a degree
(`none` models an absent/null value), `time` as retrieved by
`hour_data.get("time", "")`. -/
structure ForecastHour where
  temperature : Option Int
  time : String

/-- One step of the minimum scan of `_get_min_temp_forecast`: skip `None`
temperatures, keep the first strict minimum and its hour. -/
def minTempStep (acc : Option Int × Option String) (hd : ForecastHour) :
    Option Int × Option String :=
  match hd.temperature with
  | none => acc
  | some t =>
    match acc.1 with
    | none => (some t, some hd.time)
    | some m => if t < m then (some t, some hd.time) else acc

/-- The hour post-processing of `_get_min_temp_forecast`: if the string
contains a `"T"`, keep the five characters after the first `"T"`
(`min_hour.split("T")[1][:5]`), otherwise leave it unchanged. -/
def extractHour (s : String) : String :=
  match s.splitOn "T" with
  | _ :: rest1 :: _ => rest1.take 5
  | _ => s

/-- `SMSService._get_min_temp_forecast`: minimum temperature over the first
24 forecast hours and the hour at which it occurs; `(None, None)` when the
forecast is empty or has no temperatures. -/
def get_min_temp_forecast (forecast : List ForecastHour) : Option Int × Option String :=
  let r := (forecast.take 24).foldl minTempStep (none, none)
  match r.2 with
  | none => r
  | some s => if s = "" then r else (r.1, some (extractHour s))

/-- An alert payload, holding the fields the `SMSService` builders read.
`prediction_available`, `mlClassName` (`ml_prediction_v2.prediction.class_name`),
`clasificacion_final` (`ai_analysis.clasificacion_final`),
`currentTemperature` (`current_conditions.temperature`, tenths of a degree),
`hourly_forecast`, `probabilidad_estimada` (already rendered to the string
Python would interpolate), `requested_lat`/`requested_lon`
(`requested_location`, tenths of a degree), `externalTempOfLocation` (the
result of the `weather_service.get_current_weather` call made by the
out-of-coverage builders — an input of the model; `none` covers both a
missing field and the swallowed exception), `distance_from_station_km`
(an integer, rendered by `f"{dist:.0f}"`), and `nowStr` (the
`datetime.now().strftime("%d/%m %H:%M")` output — an input of the model). -/
structure AlertPayload where
  prediction_available : Bool
  mlClassName : Option String
  clasificacion_final : Option String
  currentTemperature : Option Int
  hourly_forecast : List ForecastHour
  probabilidad_estimada : Option String
  requested_lat : Option Int
  requested_lon : Option Int
  externalTempOfLocation : Option Int
  distance_from_station_km : Int
  nowStr : String

/-- The emoji map of `_build_prediction_message_minimal`
(`emoji_map.get(risk_class, "?")`). -/
def emojiFor (risk_class : String) : String :=
  if risk_class = "Sin Riesgo" then "✓"
  else if risk_class = "Riesgo" then "⚠"
  else if risk_class = "Moderada" then "🧊"
  else if risk_class = "Severa" then "❄"
  else "?"

/-- `SMSService._build_prediction_message_minimal` (the rich tier). -/
def build_prediction_message_minimal (p : AlertPayload) : String :=
  let risk_class := get_combined_classification (p.mlClassName.getD "Sin Riesgo") p.clasificacion_final
  let temp := match p.currentTemperature with
    | none => "?"
    | some t => formatTenth t
  let emoji := emojiFor risk_class
  let mm := get_min_temp_forecast p.hourly_forecast
  let prob := p.probabilidad_estimada.getD ""
  let min_temp_str := match mm.1 with
    | none => "?"
    | some t => formatTenth t
  let min_hour_str := match mm.2 with
    | none => "?"
    | some s => if s = "" then "?" else s
  let message :=
    if risk_class = "Sin Riesgo" then
      "WayraFrost " ++ emoji ++ "\n" ++ risk_class ++ "\nAhora:" ++ temp ++ "C\nMin:" ++
        min_temp_str ++ "C\n" ++ p.nowStr
    else
      "WayraFrost " ++ emoji ++ "\n" ++ risk_class ++ "\nProb:" ++ prob ++ "%\nAhora:" ++
        temp ++ "C Min:" ++ min_temp_str ++ "C\nRiesgo:" ++ min_hour_str ++ "\n" ++ p.nowStr
  pyStrip message

/-- `SMSService._build_prediction_message_no_emoji` (the plain tier; note the
`"N/A"` default for the current temperature and the raw `f"{min_hour}"`
interpolation, which prints `None` when no minimum hour exists). -/
def build_prediction_message_no_emoji (p : AlertPayload) : String :=
  let risk_class := get_combined_classification (p.mlClassName.getD "Sin Riesgo") p.clasificacion_final
  let temp := match p.currentTemperature with
    | none => "N/A"
    | some t => formatTenth t
  let mm := get_min_temp_forecast p.hourly_forecast
  let prob := p.probabilidad_estimada.getD ""
  let min_temp_str := match mm.1 with
    | none => "?"
    | some t => formatTenth t
  let min_hour_raw := match mm.2 with
    | none => "None"
    | some s => s
  let message :=
    if risk_class = "Sin Riesgo" then
      "WayraFrost\n" ++ risk_class ++ "\nAhora:" ++ temp ++ "C Min:" ++ min_temp_str ++
        "C\n" ++ p.nowStr
    else
      "WayraFrost ALERTA\n" ++ risk_class ++ " Prob:" ++ prob ++ "%\nAhora:" ++ temp ++
        "C Min:" ++ min_temp_str ++ "C\nCritico:" ++ min_hour_raw ++ "\n" ++ p.nowStr
  pyStrip message

/-- The temperature lookup shared by the two out-of-coverage builders: the
external fetch is attempted only when both requested coordinates are truthy,
and any failure or missing field yields `"?"`. -/
def unavailableTemp (p : AlertPayload) : String :=
  let coordsTruthy :=
    (match p.requested_lat with | none => false | some v => v != 0) &&
    (match p.requested_lon with | none => false | some v => v != 0)
  if coordsTruthy then
    match p.externalTempOfLocation with
    | none => "?"
    | some t => formatTenth t
  else "?"

/-- `SMSService._build_unavailable_message_minimal`. -/
def build_unavailable_message_minimal (p : AlertPayload) : String :=
  let temp := unavailableTemp p
  let message :=
    "WayraFrost\nTemp:" ++ temp ++ "C\nFuera de cobertura\n" ++
      toString p.distance_from_station_km ++ "km de estacion\n" ++ p.nowStr
  pyStrip message

/-- `SMSService._build_unavailable_message_no_emoji`. -/
def build_unavailable_message_no_emoji (p : AlertPayload) : String :=
  let temp := unavailableTemp p
  let message :=
    "WayraFrost\nTemp: " ++ temp ++ "C\nFUERA DE COBERTURA\n" ++
      toString p.distance_from_station_km ++ "km de estacion\nSolo valido en Junin\n" ++ p.nowStr
  pyStrip message

/-- The message-selection logic of `SMSService.send_frost_alert` (lines
61–77): build the rich (emoji) rendering for the payload kind, then switch
to the no-emoji rendering exactly when `len(message) > 160`.  No further
length handling exists in the send path. -/
def choose_alert_message (p : AlertPayload) : String :=
  let message :=
    if p.prediction_available then build_prediction_message_minimal p
    else build_unavailable_message_minimal p
  if 160 < message.length then
    (if p.prediction_available then build_prediction_message_no_emoji p
     else build_unavailable_message_no_emoji p)
  else message

/- ====================================================================
   `/api/test-sms-length` (backend/api_v2.py lines 483–506) and the
   attribute namespace of `SMSService`
   ==================================================================== -/

/-- The methods the `SMSService` class body defines, in source order
(backend/sms_service.py lines 22–295). -/
def smsServiceMethodNames : List String :=
  ["__init__", "send_frost_alert", "_get_combined_classification",
   "_get_min_temp_forecast", "_build_prediction_message_minimal",
   "_build_prediction_message_no_emoji", "_build_unavailable_message_minimal",
   "_build_unavailable_message_no_emoji", "_get_temp_at_hour", "is_available"]

/-- Attribute lookup on the `sms_service` instance, restricted to the
message-builder signature the endpoint would call: the four builders that
exist resolve, every other name raises `AttributeError` (modelled as
`none`). -/
def smsServiceAttr : String → Option (AlertPayload → String)
  | "_build_prediction_message_minimal" => some build_prediction_message_minimal
  | "_build_prediction_message_no_emoji" => some build_prediction_message_no_emoji
  | "_build_unavailable_message_minimal" => some build_unavailable_message_minimal
  | "_build_unavailable_message_no_emoji" => some build_unavailable_message_no_emoji
  | _ => none

/-- Response of `/api/test-sms-length`: either the report JSON or an HTTP
error status with the exception text. -/
inductive SmsLenResp where
  | report (message : String) (length : Nat) (within_limit : Bool) (estimated_segments : Nat)
  | httpError (status : Nat) (errMsg : String)

/-- `test_sms_length`: reads `prediction_available` from the prediction data
(a missing body raises inside the handler and is caught by the blanket
`except`, as is any `AttributeError` from the method lookup), then calls
`sms_service._build_prediction_message_short` or
`sms_service._build_unavailable_message_short` and would report the message,
its length, the 1600-char flag and the segment estimate. -/
def test_sms_length (predictionData : Option AlertPayload) : SmsLenResp :=
  match predictionData with
  | none => SmsLenResp.httpError 500 "AttributeError: NoneType object has no attribute get"
  | some p =>
    let name :=
      if p.prediction_available then "_build_prediction_message_short"
      else "_build_unavailable_message_short"
    match smsServiceAttr name with
    | none => SmsLenResp.httpError 500 ("AttributeError: SMSService object has no attribute " ++ name)
    | some f =>
      let m := f p
      SmsLenResp.report m m.length (decide (m.length ≤ 1600)) (m.length / 160 + 1)

/- ====================================================================
   Concrete inputs used by witnesses and counterexamples
   ==================================================================== -/

/-- A 7-entry history whose entry recorded at hour `t` has `HR = t`
(`t = 0, …, 6`; most recent entry is `HR = 6`). -/
def lagDemoHist7 : List WDict := (List.range 7).map (fun i => [("HR", (i : ℚ))])

/-- A 3-entry history: `HR = 10, 11, 12` in insertion order. -/
def lagDemoHist3 : List WDict := [[("HR", 10)], [("HR", 11)], [("HR", 12)]]

/-- A current observation with `HR = 50`. -/
def lagDemoCurrent : WDict := [("HR", 50)]

/-- 25 recorded observations, `HR = 0, …, 24` in insertion order. -/
def obs25 : List WDict := (List.range 25).map (fun i => [("HR", (i : ℚ))])

/-- A small payload whose rich rendering is far below 160 characters. -/
def pShort : AlertPayload :=
  ⟨true, none, none, some 182, [], none, none, none, none, 0, "01/01 00:00"⟩

/-- A 1700-character advisory class name (each character is one ASCII `X`). -/
def bigClassName : String := String.mk (List.replicate 1700 'X')

/-- A payload whose advisory classification is `bigClassName`: the reconciled
risk class is that 1700-character string (both classes have ordinal 0 under
`risk_order`, so the advisory wins the tie), so even the no-emoji rendering
exceeds 1600 characters. -/
def pOversize : AlertPayload :=
  ⟨true, none, some bigClassName, some 182, [], some "80", none, none, none, 0, "01/01 00:00"⟩

/- ====================================================================
   Helper lemmas
   ==================================================================== -/

/-- One `dequeAppend` keeps the buffer within capacity. -/
theorem dequeAppend_length_le (cap : Nat) (hist : List α) (e : α)
    (h : hist.length ≤ cap) : (dequeAppend cap hist e).length ≤ cap := by
  unfold dequeAppend
  split
  · rw [List.length_drop]
    omega
  · rename_i hc
    simp only [List.length_append, List.length_singleton, not_lt] at hc ⊢
    omega

/-- Folding `dequeAppend` over a sequence of appends always leaves exactly
the most recent `cap` elements (everything, when fewer than `cap` arrived). -/
theorem foldl_dequeAppend (cap : Nat) (es : List α) :
    ∀ acc : List α, acc.length ≤ cap →
      es.foldl (dequeAppend cap) acc = (acc ++ es).drop ((acc ++ es).length - cap) := by
  induction es with
  | nil =>
    intro acc h
    simp [Nat.sub_eq_zero_of_le h]
  | cons e rest ih =>
    intro acc h
    rw [List.foldl_cons, ih (dequeAppend cap acc e) (dequeAppend_length_le cap acc e h)]
    have hl : (acc ++ [e]).length = acc.length + 1 := by simp
    by_cases hc : cap < (acc ++ [e]).length
    · have hd : dequeAppend cap acc e = (acc ++ [e]).drop 1 := by
        unfold dequeAppend
        rw [if_pos hc]
        congr 1
        omega
      rw [hd]
      have h2 : (acc ++ e :: rest).drop 1 = (acc ++ [e]).drop 1 ++ rest := by
        have ha : acc ++ e :: rest = (acc ++ [e]) ++ rest := by simp
        rw [ha, List.drop_append_eq_append_drop]
        have hz : 1 - (acc ++ [e]).length = 0 := by omega
        rw [hz, List.drop_zero]
      rw [← h2, List.drop_drop]
      congr 1
      have hl2 : (acc ++ e :: rest).length = acc.length + 1 + rest.length := by
        simp
        omega
      rw [List.length_drop, hl2]
      omega
    · have hd : dequeAppend cap acc e = acc ++ [e] := by
        unfold dequeAppend
        rw [if_neg hc]
      rw [hd]
      have h3 : (acc ++ [e]) ++ rest = acc ++ e :: rest := by simp
      rw [h3]

/-- Where each feature key of `prepare_features_with_lags` resolves: the
lookup of `"{v}_lag_{h}h"` returns the code's lag value — the entry at
Python index `-h` when the history is long enough, the oldest entry when the
history is non-empty but shorter than `h`, and the current value when the
history is empty. -/
theorem prepare_features_lookup (cd : WDict) (history : List WDict) (h : Nat) (v : String)
    (hh : h ∈ lagHorizons) (hv : v ∈ lagVars) :
    (prepare_features_with_lags cd history).lookup (lagKey v h) =
      some (match history with
            | [] => dictGet cd v 0
            | _ :: _ =>
              dictGet (history.getD (if h ≤ history.length then history.length - h else 0) [])
                v (dictGet cd v 0)) := by
  fin_cases hh <;> fin_cases hv <;> cases history <;> rfl

/-- Evaluation of the oversize payload: the plain rendering that
`send_frost_alert` falls back to is longer than 1600 characters and is
selected unchanged. -/
theorem pOversize_overflow : 1600 < (choose_alert_message pOversize).length := by decide

/-- `arctan x ≤ x` for nonnegative `x`. -/
theorem arctan_le_self (x : ℝ) (hx : 0 ≤ x) : Real.arctan x ≤ x := by
  rcases eq_or_lt_of_le hx with h | h
  · rw [← h, Real.arctan_zero]
  · have h1 : 0 < Real.arctan x := by
      have := Real.arctan_strictMono h
      rwa [Real.arctan_zero] at this
    have h2 := Real.arctan_lt_pi_div_two x
    have h3 := Real.lt_tan h1 h2
    rw [Real.tan_arctan] at h3
    exact le_of_lt h3

/-- `x (1 - x²/2) ≤ arctan x` for nonnegative `x`. -/
theorem arctan_ge_lower (x : ℝ) (hx : 0 ≤ x) : x * (1 - x ^ 2 / 2) ≤ Real.arctan x := by
  have harc0 : 0 ≤ Real.arctan x := by
    rcases eq_or_lt_of_le hx with h | h
    · rw [← h, Real.arctan_zero]
    · have := Real.arctan_strictMono h
      rw [Real.arctan_zero] at this
      exact le_of_lt this
  have hsin : Real.sin (Real.arctan x) ≤ Real.arctan x := by
    rcases eq_or_lt_of_le harc0 with h | h
    · rw [← h, Real.sin_zero]
    · exact le_of_lt (Real.sin_lt h)
  rw [Real.sin_arctan] at hsin
  have hs : Real.sqrt (1 + x ^ 2) ≤ 1 + x ^ 2 / 2 := by
    have hrw : Real.sqrt ((1 + x ^ 2 / 2) ^ 2) = 1 + x ^ 2 / 2 := Real.sqrt_sq (by positivity)
    calc Real.sqrt (1 + x ^ 2) ≤ Real.sqrt ((1 + x ^ 2 / 2) ^ 2) := by
          apply Real.sqrt_le_sqrt
          nlinarith [sq_nonneg x, sq_nonneg (x ^ 2)]
    _ = 1 + x ^ 2 / 2 := hrw
  have hs0 : 0 < Real.sqrt (1 + x ^ 2) := Real.sqrt_pos.mpr (by positivity)
  have key : x * (1 - x ^ 2 / 2) ≤ x / Real.sqrt (1 + x ^ 2) := by
    rw [le_div_iff₀ hs0]
    by_cases hc : 1 - x ^ 2 / 2 ≤ 0
    · have hnp : x * (1 - x ^ 2 / 2) * Real.sqrt (1 + x ^ 2) ≤ 0 := by
        apply mul_nonpos_of_nonpos_of_nonneg
        · exact mul_nonpos_of_nonneg_of_nonpos hx hc
        · exact le_of_lt hs0
      linarith
    · push_neg at hc
      have h1 : (1 - x ^ 2 / 2) * Real.sqrt (1 + x ^ 2) ≤ (1 - x ^ 2 / 2) * (1 + x ^ 2 / 2) :=
        mul_le_mul_of_nonneg_left hs (le_of_lt hc)
      nlinarith [sq_nonneg (x ^ 2)]
  linarith

/-- Lower tail of the Taylor bound for `sin` on `[0, 1]`. -/
theorem sin_ge_lower (x : ℝ) (h0 : 0 ≤ x) (h1 : x ≤ 1) :
    x - x ^ 3 / 6 - x ^ 4 * (5 / 96) ≤ Real.sin x := by
  have hb := Real.sin_bound (x := x) (by rw [abs_of_nonneg h0]; exact h1)
  rw [abs_of_nonneg h0] at hb
  have h2 := abs_le.mp hb
  linarith [h2.1]

/-- Lower tail of the Taylor bound for `cos` on `[0, 1]`. -/
theorem cos_ge_lower (x : ℝ) (h0 : 0 ≤ x) (h1 : x ≤ 1) :
    1 - x ^ 2 / 2 - x ^ 4 * (5 / 96) ≤ Real.cos x := by
  have hb := Real.cos_bound (x := x) (by rw [abs_of_nonneg h0]; exact h1)
  rw [abs_of_nonneg h0] at hb
  have h2 := abs_le.mp hb
  linarith [h2.1]

/-- Upper tail of the Taylor bound for `cos` on `[0, 1]`. -/
theorem cos_le_upper (x : ℝ) (h0 : 0 ≤ x) (h1 : x ≤ 1) :
    Real.cos x ≤ 1 - x ^ 2 / 2 + x ^ 4 * (5 / 96) := by
  have hb := Real.cos_bound (x := x) (by rw [abs_of_nonneg h0]; exact h1)
  rw [abs_of_nonneg h0] at hb
  have h2 := abs_le.mp hb
  linarith [h2.2]

/-- Rational two-sided bound through a square root. -/
theorem sqrt_bounds (a lo hi : ℝ) (hlo : 0 ≤ lo) (h1 : lo ^ 2 ≤ a) (h2 : a ≤ hi ^ 2)
    (hhi : 0 ≤ hi) : lo ≤ Real.sqrt a ∧ Real.sqrt a ≤ hi := by
  constructor
  · exact (Real.le_sqrt hlo (le_trans (by positivity) h1)).mpr h1
  · have hrw : Real.sqrt (hi ^ 2) = hi := Real.sqrt_sq hhi
    calc Real.sqrt a ≤ Real.sqrt (hi ^ 2) := Real.sqrt_le_sqrt h2
    _ = hi := hrw

/-- Bounds for the haversine central-angle term `atan2 √a √(1−a)`: squeezed
between `arctan salo` and `sahi / sblo` once `a` is bounded between `salo²`
and `sahi²` and `1 − a` is at least `sblo² > 0`. -/
theorem atan2_term_bounds (a salo sahi sblo : ℝ)
    (hsalo : 0 ≤ salo) (h1 : salo ^ 2 ≤ a) (h2 : a ≤ sahi ^ 2) (hsahi : 0 ≤ sahi)
    (h3 : sblo ^ 2 ≤ 1 - a) (hsblo : 0 < sblo) (h4 : 1 - a ≤ 1) :
    Real.arctan salo ≤ math_atan2 (Real.sqrt a) (Real.sqrt (1 - a))
    ∧ math_atan2 (Real.sqrt a) (Real.sqrt (1 - a)) ≤ sahi / sblo := by
  have hsa := sqrt_bounds a salo sahi hsalo h1 h2 hsahi
  have hsb_lo : sblo ≤ Real.sqrt (1 - a) :=
    (Real.le_sqrt (le_of_lt hsblo) (le_trans (by positivity) h3)).mpr h3
  have hsb_hi : Real.sqrt (1 - a) ≤ 1 := by
    calc Real.sqrt (1 - a) ≤ Real.sqrt 1 := Real.sqrt_le_sqrt h4
    _ = 1 := Real.sqrt_one
  have hb0 : 0 < Real.sqrt (1 - a) := lt_of_lt_of_le hsblo hsb_lo
  have heq : math_atan2 (Real.sqrt a) (Real.sqrt (1 - a))
      = Real.arctan (Real.sqrt a / Real.sqrt (1 - a)) := by
    unfold math_atan2
    rw [if_pos hb0]
  rw [heq]
  have ht_lo : salo ≤ Real.sqrt a / Real.sqrt (1 - a) := by
    rw [le_div_iff₀ hb0]
    calc salo * Real.sqrt (1 - a) ≤ salo * 1 := mul_le_mul_of_nonneg_left hsb_hi hsalo
    _ = salo := mul_one _
    _ ≤ Real.sqrt a := hsa.1
  have ht_hi : Real.sqrt a / Real.sqrt (1 - a) ≤ sahi / sblo :=
    div_le_div₀ hsahi hsa.2 hsblo hsb_lo
  refine ⟨Real.arctan_strictMono.monotone ht_lo, ?_⟩
  have ht0 : 0 ≤ Real.sqrt a / Real.sqrt (1 - a) := by positivity
  exact le_trans (arctan_le_self _ ht0) ht_hi

/-- Numeric evaluation of the code's haversine distance from the Huayao
station to (−12.0653, −75.2049) (Huancayo): it lies in (13.1, 13.2) km —
about 13.17 km. -/
theorem dist_huancayo_bounds :
    13.1 < calculate_distance STATION_LAT STATION_LON (-12.0653) (-75.2049)
    ∧ calculate_distance STATION_LAT STATION_LON (-12.0653) (-75.2049) < 13.2 := by
  have pl : (3.141592 : ℝ) < Real.pi := Real.pi_gt_d6
  have pu : Real.pi < 3.141593 := Real.pi_lt_d6
  have hD : calculate_distance STATION_LAT STATION_LON (-12.0653) (-75.2049)
      = 6371 * (2 * math_atan2
          (Real.sqrt (Real.sin (0.027 * Real.pi / 360) ^ 2 +
            Real.cos (12.0383 * Real.pi / 180) * Real.cos (12.0653 * Real.pi / 180) *
              Real.sin (0.1179 * Real.pi / 360) ^ 2))
          (Real.sqrt (1 - (Real.sin (0.027 * Real.pi / 360) ^ 2 +
            Real.cos (12.0383 * Real.pi / 180) * Real.cos (12.0653 * Real.pi / 180) *
              Real.sin (0.1179 * Real.pi / 360) ^ 2)))) := by
    have e1 : ((-12.0653 : ℝ) - (-12.0383)) * Real.pi / 180 / 2 = -(0.027 * Real.pi / 360) := by
      ring
    have e2 : ((-12.0383 : ℝ)) * Real.pi / 180 = -(12.0383 * Real.pi / 180) := by ring
    have e3 : ((-12.0653 : ℝ)) * Real.pi / 180 = -(12.0653 * Real.pi / 180) := by ring
    have e4 : ((-75.2049 : ℝ) - (-75.3228)) * Real.pi / 180 / 2 = 0.1179 * Real.pi / 360 := by
      ring
    simp only [calculate_distance, radians, STATION_LAT, STATION_LON]
    rw [e1, e2, e3, e4, Real.sin_neg, Real.cos_neg, Real.cos_neg, neg_sq]
  rw [hD]
  set x1 : ℝ := 0.027 * Real.pi / 360 with hx1def
  set x2 : ℝ := 0.1179 * Real.pi / 360 with hx2def
  set f1 : ℝ := 12.0383 * Real.pi / 180 with hf1def
  set f2 : ℝ := 12.0653 * Real.pi / 180 with hf2def
  clear_value x1 x2 f1 f2
  have hx1 : (0.000235619 : ℝ) ≤ x1 ∧ x1 ≤ 0.00023562 := by
    rw [hx1def]
    constructor <;> linarith
  have hx2 : (0.001028871 : ℝ) ≤ x2 ∧ x2 ≤ 0.001028872 := by
    rw [hx2def]
    constructor <;> linarith
  have hf1 : (0.210107 : ℝ) ≤ f1 ∧ f1 ≤ 0.210108 := by
    rw [hf1def]
    constructor <;> linarith
  have hf2 : (0.210579 : ℝ) ≤ f2 ∧ f2 ≤ 0.210580 := by
    rw [hf2def]
    constructor <;> linarith
  -- sin² of the half-angle differences
  have hx1_0 : (0 : ℝ) ≤ x1 := by linarith [hx1.1]
  have hx2_0 : (0 : ℝ) ≤ x2 := by linarith [hx2.1]
  have hs1_up : Real.sin x1 ^ 2 ≤ 5.5517e-8 := by
    nlinarith [Real.sin_sq_le_sq (x := x1), hx1.1, hx1.2]
  have hs1_lo : (5.5515e-8 : ℝ) ≤ Real.sin x1 ^ 2 := by
    have hcube := pow_le_pow_left₀ hx1_0 hx1.2 3
    have hquad := pow_le_pow_left₀ hx1_0 hx1.2 4
    have hsl := sin_ge_lower x1 hx1_0 (by linarith [hx1.2])
    have hsin : (0.000235618 : ℝ) ≤ Real.sin x1 := by nlinarith [hsl, hx1.1]
    nlinarith [hsin]
  have hs2_up : Real.sin x2 ^ 2 ≤ 1.0586e-6 := by
    nlinarith [Real.sin_sq_le_sq (x := x2), hx2.1, hx2.2]
  have hs2_lo : (1.0585e-6 : ℝ) ≤ Real.sin x2 ^ 2 := by
    have hcube := pow_le_pow_left₀ hx2_0 hx2.2 3
    have hquad := pow_le_pow_left₀ hx2_0 hx2.2 4
    have hsl := sin_ge_lower x2 hx2_0 (by linarith [hx2.2])
    have hsin : (0.00102887 : ℝ) ≤ Real.sin x2 := by nlinarith [hsl, hx2.1]
    nlinarith [hsin]
  -- cos of the two latitudes
  have hf1_0 : (0 : ℝ) ≤ f1 := by linarith [hf1.1]
  have hf2_0 : (0 : ℝ) ≤ f2 := by linarith [hf2.1]
  have hc1 : (0.9778 : ℝ) ≤ Real.cos f1 ∧ Real.cos f1 ≤ 0.9781 := by
    have hsq := pow_le_pow_left₀ hf1_0 hf1.2 2
    have hsq' := pow_le_pow_left₀ (show (0 : ℝ) ≤ 0.210107 by norm_num) hf1.1 2
    have hquad := pow_le_pow_left₀ hf1_0 hf1.2 4
    have hlo := cos_ge_lower f1 hf1_0 (by linarith [hf1.2])
    have hup := cos_le_upper f1 hf1_0 (by linarith [hf1.2])
    constructor <;> nlinarith [hlo, hup, hsq, hsq', hquad]
  have hc2 : (0.9777 : ℝ) ≤ Real.cos f2 ∧ Real.cos f2 ≤ 0.9780 := by
    have hsq := pow_le_pow_left₀ hf2_0 hf2.2 2
    have hsq' := pow_le_pow_left₀ (show (0 : ℝ) ≤ 0.210579 by norm_num) hf2.1 2
    have hquad := pow_le_pow_left₀ hf2_0 hf2.2 4
    have hlo := cos_ge_lower f2 hf2_0 (by linarith [hf2.2])
    have hup := cos_le_upper f2 hf2_0 (by linarith [hf2.2])
    constructor <;> nlinarith [hlo, hup, hsq, hsq', hquad]
  -- the haversine `a`
  set A : ℝ := Real.sin x1 ^ 2 + Real.cos f1 * Real.cos f2 * Real.sin x2 ^ 2 with hAdef
  clear_value A
  have hc1_0 : (0 : ℝ) ≤ Real.cos f1 := by linarith [hc1.1]
  have hc2_0 : (0 : ℝ) ≤ Real.cos f2 := by linarith [hc2.1]
  have hprod : (0.9559 : ℝ) ≤ Real.cos f1 * Real.cos f2
      ∧ Real.cos f1 * Real.cos f2 ≤ 0.9566 := by
    have hm1 : (0.9778 : ℝ) * 0.9777 ≤ Real.cos f1 * Real.cos f2 :=
      mul_le_mul hc1.1 hc2.1 (by norm_num) hc1_0
    have hm2 : Real.cos f1 * Real.cos f2 ≤ 0.9781 * 0.9780 :=
      mul_le_mul hc1.2 hc2.2 hc2_0 (by norm_num)
    constructor <;> linarith
  have hprod_0 : (0 : ℝ) ≤ Real.cos f1 * Real.cos f2 := mul_nonneg hc1_0 hc2_0
  have hA : (1.0673e-6 : ℝ) ≤ A ∧ A ≤ 1.0682e-6 := by
    rw [hAdef]
    have hm1 : (0.9559 : ℝ) * 1.0585e-6 ≤ Real.cos f1 * Real.cos f2 * Real.sin x2 ^ 2 :=
      mul_le_mul hprod.1 hs2_lo (by norm_num) hprod_0
    have hm2 : Real.cos f1 * Real.cos f2 * Real.sin x2 ^ 2 ≤ 0.9566 * 1.0586e-6 :=
      mul_le_mul hprod.2 hs2_up (sq_nonneg _) (by norm_num)
    constructor <;> linarith
  have hb := atan2_term_bounds A 0.001033 0.0010336 0.999999
    (by norm_num) (by norm_num; linarith [hA.1]) (by norm_num; linarith [hA.2]) (by norm_num)
    (by norm_num; linarith [hA.2]) (by norm_num) (by linarith [hA.1])
  have harc : (0.0010329 : ℝ) ≤ Real.arctan 0.001033 := by
    have hgl := arctan_ge_lower 0.001033 (by norm_num)
    have hnum : (0.0010329 : ℝ) ≤ 0.001033 * (1 - 0.001033 ^ 2 / 2) := by norm_num
    linarith
  have hhi : (0.0010336 : ℝ) / 0.999999 ≤ 0.0010337 := by norm_num
  constructor
  · linarith [hb.1, harc]
  · linarith [hb.2, hhi]

/-- Numeric evaluation of the code's haversine distance from the Huayao
station to (−15.8402, −70.0219): it lies in (709, 713) km — about 711 km. -/
theorem dist_puno_bounds :
    709 < calculate_distance STATION_LAT STATION_LON (-15.8402) (-70.0219)
    ∧ calculate_distance STATION_LAT STATION_LON (-15.8402) (-70.0219) < 713 := by
  have pl : (3.141592 : ℝ) < Real.pi := Real.pi_gt_d6
  have pu : Real.pi < 3.141593 := Real.pi_lt_d6
  have hD : calculate_distance STATION_LAT STATION_LON (-15.8402) (-70.0219)
      = 6371 * (2 * math_atan2
          (Real.sqrt (Real.sin (3.8019 * Real.pi / 360) ^ 2 +
            Real.cos (12.0383 * Real.pi / 180) * Real.cos (15.8402 * Real.pi / 180) *
              Real.sin (5.3009 * Real.pi / 360) ^ 2))
          (Real.sqrt (1 - (Real.sin (3.8019 * Real.pi / 360) ^ 2 +
            Real.cos (12.0383 * Real.pi / 180) * Real.cos (15.8402 * Real.pi / 180) *
              Real.sin (5.3009 * Real.pi / 360) ^ 2)))) := by
    have e1 : ((-15.8402 : ℝ) - (-12.0383)) * Real.pi / 180 / 2
        = -(3.8019 * Real.pi / 360) := by ring
    have e2 : ((-12.0383 : ℝ)) * Real.pi / 180 = -(12.0383 * Real.pi / 180) := by ring
    have e3 : ((-15.8402 : ℝ)) * Real.pi / 180 = -(15.8402 * Real.pi / 180) := by ring
    have e4 : ((-70.0219 : ℝ) - (-75.3228)) * Real.pi / 180 / 2
        = 5.3009 * Real.pi / 360 := by ring
    simp only [calculate_distance, radians, STATION_LAT, STATION_LON]
    rw [e1, e2, e3, e4, Real.sin_neg, Real.cos_neg, Real.cos_neg, neg_sq]
  rw [hD]
  set x1 : ℝ := 3.8019 * Real.pi / 360 with hx1def
  set x2 : ℝ := 5.3009 * Real.pi / 360 with hx2def
  set f1 : ℝ := 12.0383 * Real.pi / 180 with hf1def
  set f2 : ℝ := 15.8402 * Real.pi / 180 with hf2def
  clear_value x1 x2 f1 f2
  have hx1 : (0.0331778 : ℝ) ≤ x1 ∧ x1 ≤ 0.0331779 := by
    rw [hx1def]
    constructor <;> linarith
  have hx2 : (0.0462590 : ℝ) ≤ x2 ∧ x2 ≤ 0.0462591 := by
    rw [hx2def]
    constructor <;> linarith
  have hf1 : (0.210107 : ℝ) ≤ f1 ∧ f1 ≤ 0.210108 := by
    rw [hf1def]
    constructor <;> linarith
  have hf2 : (0.2764635 : ℝ) ≤ f2 ∧ f2 ≤ 0.2764637 := by
    rw [hf2def]
    constructor <;> linarith
  have hx1_0 : (0 : ℝ) ≤ x1 := by linarith [hx1.1]
  have hx2_0 : (0 : ℝ) ≤ x2 := by linarith [hx2.1]
  have hs1_up : Real.sin x1 ^ 2 ≤ 0.0011008 := by
    nlinarith [Real.sin_sq_le_sq (x := x1), hx1.1, hx1.2]
  have hs1_lo : (0.0011003 : ℝ) ≤ Real.sin x1 ^ 2 := by
    have hcube := pow_le_pow_left₀ hx1_0 hx1.2 3
    have hquad := pow_le_pow_left₀ hx1_0 hx1.2 4
    have hsl := sin_ge_lower x1 hx1_0 (by linarith [hx1.2])
    have hsin : (0.0331715 : ℝ) ≤ Real.sin x1 := by nlinarith [hsl, hx1.1]
    nlinarith [hsin]
  have hs2_up : Real.sin x2 ^ 2 ≤ 0.0021400 := by
    nlinarith [Real.sin_sq_le_sq (x := x2), hx2.1, hx2.2]
  have hs2_lo : (0.0021383 : ℝ) ≤ Real.sin x2 ^ 2 := by
    have hcube := pow_le_pow_left₀ hx2_0 hx2.2 3
    have hquad := pow_le_pow_left₀ hx2_0 hx2.2 4
    have hsl := sin_ge_lower x2 hx2_0 (by linarith [hx2.2])
    have hsin : (0.0462422 : ℝ) ≤ Real.sin x2 := by nlinarith [hsl, hx2.1]
    nlinarith [hsin]
  have hf1_0 : (0 : ℝ) ≤ f1 := by linarith [hf1.1]
  have hf2_0 : (0 : ℝ) ≤ f2 := by linarith [hf2.1]
  have hc1 : (0.9778 : ℝ) ≤ Real.cos f1 ∧ Real.cos f1 ≤ 0.9781 := by
    have hsq := pow_le_pow_left₀ hf1_0 hf1.2 2
    have hsq' := pow_le_pow_left₀ (show (0 : ℝ) ≤ 0.210107 by norm_num) hf1.1 2
    have hquad := pow_le_pow_left₀ hf1_0 hf1.2 4
    have hlo := cos_ge_lower f1 hf1_0 (by linarith [hf1.2])
    have hup := cos_le_upper f1 hf1_0 (by linarith [hf1.2])
    constructor <;> nlinarith [hlo, hup, hsq, hsq', hquad]
  have hc2 : (0.96147 : ℝ) ≤ Real.cos f2 ∧ Real.cos f2 ≤ 0.96209 := by
    have hsq := pow_le_pow_left₀ hf2_0 hf2.2 2
    have hsq' := pow_le_pow_left₀ (show (0 : ℝ) ≤ 0.2764635 by norm_num) hf2.1 2
    have hquad := pow_le_pow_left₀ hf2_0 hf2.2 4
    have hlo := cos_ge_lower f2 hf2_0 (by linarith [hf2.2])
    have hup := cos_le_upper f2 hf2_0 (by linarith [hf2.2])
    constructor <;> nlinarith [hlo, hup, hsq, hsq', hquad]
  set A : ℝ := Real.sin x1 ^ 2 + Real.cos f1 * Real.cos f2 * Real.sin x2 ^ 2 with hAdef
  clear_value A
  have hc1_0 : (0 : ℝ) ≤ Real.cos f1 := by linarith [hc1.1]
  have hc2_0 : (0 : ℝ) ≤ Real.cos f2 := by linarith [hc2.1]
  have hprod : (0.9401 : ℝ) ≤ Real.cos f1 * Real.cos f2
      ∧ Real.cos f1 * Real.cos f2 ≤ 0.9411 := by
    have hm1 : (0.9778 : ℝ) * 0.96147 ≤ Real.cos f1 * Real.cos f2 :=
      mul_le_mul hc1.1 hc2.1 (by norm_num) hc1_0
    have hm2 : Real.cos f1 * Real.cos f2 ≤ 0.9781 * 0.96209 :=
      mul_le_mul hc1.2 hc2.2 hc2_0 (by norm_num)
    constructor <;> linarith
  have hprod_0 : (0 : ℝ) ≤ Real.cos f1 * Real.cos f2 := mul_nonneg hc1_0 hc2_0
  have hA : (0.0031105 : ℝ) ≤ A ∧ A ≤ 0.0031148 := by
    rw [hAdef]
    have hm1 : (0.9401 : ℝ) * 0.0021383 ≤ Real.cos f1 * Real.cos f2 * Real.sin x2 ^ 2 :=
      mul_le_mul hprod.1 hs2_lo (by norm_num) hprod_0
    have hm2 : Real.cos f1 * Real.cos f2 * Real.sin x2 ^ 2 ≤ 0.9411 * 0.0021400 :=
      mul_le_mul hprod.2 hs2_up (sq_nonneg _) (by norm_num)
    constructor <;> linarith
  have hb := atan2_term_bounds A 0.055771 0.055812 0.99843
    (by norm_num) (by norm_num; linarith [hA.1]) (by norm_num; linarith [hA.2]) (by norm_num)
    (by norm_num; linarith [hA.2]) (by norm_num) (by linarith [hA.1])
  have harc : (0.055684 : ℝ) ≤ Real.arctan 0.055771 := by
    have hgl := arctan_ge_lower 0.055771 (by norm_num)
    have hnum : (0.055684 : ℝ) ≤ 0.055771 * (1 - 0.055771 ^ 2 / 2) := by norm_num
    linarith
  have hhi : (0.055812 : ℝ) / 0.99843 ≤ 0.0559 := by norm_num
  constructor
  · linarith [hb.1, harc]
  · linarith [hb.2, hhi]

/- ====================================================================
   Claims
   ==================================================================== -/

/-- C1: over the four-level vocabulary, reconciliation returns the primary
class when the advisory is absent, otherwise the class of maximal ordinal
severity (hence never less severe than either input), and it is commutative
when both classes are present; `reconcile(1,3)=3`, `reconcile(2,None)=2`
and `reconcile(0,0)=0` are the instances `a=1,b=3`, `a=2`, `a=b=0`. -/
theorem claim1_reconcile_max :
    ∀ a b : Fin 4,
      get_combined_classification (className a) none = className a
      ∧ get_combined_classification (className a) (some (className b)) = className (max a b)
      ∧ risk_order (get_combined_classification (className a) (some (className b)))
          = max (risk_order (className a)) (risk_order (className b))
      ∧ get_combined_classification (className a) (some (className b))
          = get_combined_classification (className b) (some (className a)) := by
  decide

/-- C2 counterexample: with a 7-entry history whose entry at hour `t` has
`HR = t` (most recent `HR = 6`) and current `HR = 50`, the claim predicts the
horizon-6 lag feature is the value 6 steps before the most recent entry
(`HR = 0`), but the code emits `history[-6]`, the 6th entry from the end
(`HR = 1`); and with a 3-entry history (`HR = 10, 11, 12`, fewer than 6
entries) the claim predicts the current value `50`, but the code emits the
oldest entry `history[-3]` (`HR = 10`). -/
theorem claim2_lag_counterexample :
    ((prepare_features_with_lags lagDemoCurrent lagDemoHist7).lookup "HR_lag_6h" = some 1
      ∧ ¬ (prepare_features_with_lags lagDemoCurrent lagDemoHist7).lookup "HR_lag_6h" = some 0)
    ∧ ((prepare_features_with_lags lagDemoCurrent lagDemoHist3).lookup "HR_lag_6h" = some 10
      ∧ ¬ (prepare_features_with_lags lagDemoCurrent lagDemoHist3).lookup "HR_lag_6h" = some 50) := by
  decide

/-- C2 (amended): when the history has at least `h` entries, each emitted
lag-`h` feature equals the variable's value in the `h`-th most recent entry
(h−1 steps before the most recent); when the history is non-empty with fewer
than `h` entries, it equals the value in the oldest retained entry; only when
the history is empty does it equal the current value. -/
theorem claim2_lag_semantics (cd : WDict) (history : List WDict) (h : Nat) (v : String)
    (hh : h ∈ lagHorizons) (hv : v ∈ lagVars) :
    (h ≤ history.length →
      (prepare_features_with_lags cd history).lookup (lagKey v h)
        = some (dictGet (history.getD (history.length - h) []) v (dictGet cd v 0)))
    ∧ (history ≠ [] → history.length < h →
      (prepare_features_with_lags cd history).lookup (lagKey v h)
        = some (dictGet (history.getD 0 []) v (dictGet cd v 0)))
    ∧ (history = [] →
      (prepare_features_with_lags cd history).lookup (lagKey v h)
        = some (dictGet cd v 0)) := by
  have key := prepare_features_lookup cd history h v hh hv
  refine ⟨?_, ?_, ?_⟩
  · intro hle
    cases history with
    | nil =>
      exfalso
      have h0 : h = 0 := Nat.le_zero.mp (by simpa using hle)
      subst h0
      simp [lagHorizons] at hh
    | cons e t =>
      rw [key]
      rw [if_pos hle]
  · intro hne hlt
    cases history with
    | nil => exact absurd rfl hne
    | cons e t =>
      rw [key]
      rw [if_neg (not_le.mpr hlt)]
  · intro hnil
    subst hnil
    rw [key]

/-- Witness for C2 (amended) at the two demo histories. -/
theorem claim2_lag_semantics_witness :
    (6 ∈ lagHorizons ∧ "HR" ∈ lagVars)
    ∧ (6 ≤ lagDemoHist7.length
        ∧ (prepare_features_with_lags lagDemoCurrent lagDemoHist7).lookup (lagKey "HR" 6)
          = some (dictGet (lagDemoHist7.getD (lagDemoHist7.length - 6) []) "HR"
              (dictGet lagDemoCurrent "HR" 0)))
    ∧ (lagDemoHist3 ≠ [] ∧ lagDemoHist3.length < 6
        ∧ (prepare_features_with_lags lagDemoCurrent lagDemoHist3).lookup (lagKey "HR" 6)
          = some (dictGet (lagDemoHist3.getD 0 []) "HR" (dictGet lagDemoCurrent "HR" 0))) := by
  refine ⟨⟨by decide, by decide⟩, ⟨by decide, ?_⟩, ⟨by decide, by decide, ?_⟩⟩
  · exact (claim2_lag_semantics lagDemoCurrent lagDemoHist7 6 "HR"
      (by decide) (by decide)).1 (by decide)
  · exact ((claim2_lag_semantics lagDemoCurrent lagDemoHist3 6 "HR"
      (by decide) (by decide)).2).1 (by decide) (by decide)

/-- C4: the per-key history never exceeds 24 entries, and once more than 24
observations have been recorded it holds exactly the 24 most recent ones in
insertion order (the suffix `drop (N - 24)` of the recorded sequence). -/
theorem claim4_history_capacity (es : List WDict) :
    ((es.foldl store_weather_data []).length ≤ HIST_CAP)
    ∧ (HIST_CAP < es.length →
        es.foldl store_weather_data [] = es.drop (es.length - HIST_CAP)
        ∧ (es.foldl store_weather_data []).length = HIST_CAP) := by
  have key : es.foldl store_weather_data [] =
      (([] : List WDict) ++ es).drop ((([] : List WDict) ++ es).length - HIST_CAP) :=
    foldl_dequeAppend HIST_CAP es [] (by simp)
  simp only [List.nil_append] at key
  refine ⟨?_, fun hN => ⟨?_, ?_⟩⟩
  · rw [key, List.length_drop]
    omega
  · rw [key]
  · rw [key, List.length_drop]
    omega

/-- Witness for C4 at 25 recorded observations. -/
theorem claim4_history_capacity_witness :
    HIST_CAP < obs25.length
    ∧ obs25.foldl store_weather_data [] = obs25.drop (obs25.length - HIST_CAP)
    ∧ (obs25.foldl store_weather_data []).length = HIST_CAP := by
  refine ⟨by decide, ?_, ?_⟩
  · exact ((claim4_history_capacity obs25).2 (by decide)).1
  · exact ((claim4_history_capacity obs25).2 (by decide)).2

/-- C5: the synthesized feature dict always has exactly
`5 × (1 + 3) = 20` entries — one per tracked variable for the present time
and one per variable per horizon — in the fixed key order, regardless of the
history length. -/
theorem claim5_feature_vector_shape (current_data : WDict) (history : List WDict) :
    (prepare_features_with_lags current_data history).length = 20
    ∧ (prepare_features_with_lags current_data history).map Prod.fst =
        ["HR", "radinf", "vel", "dir_sin", "dir_cos",
         "HR_lag_6h", "radinf_lag_6h", "vel_lag_6h", "dir_sin_lag_6h", "dir_cos_lag_6h",
         "HR_lag_12h", "radinf_lag_12h", "vel_lag_12h", "dir_sin_lag_12h", "dir_cos_lag_12h",
         "HR_lag_24h", "radinf_lag_24h", "vel_lag_24h", "dir_sin_lag_24h", "dir_cos_lag_24h"] := by
  cases history <;> exact ⟨rfl, rfl⟩

/-- C6 counterexample: the haversine distance the code computes from the
station to (−12.0653, −75.2049) lies strictly between 13.1 and 13.2 km, so it
is not approximately 10.9 km; and the distance to (−15.8402, −70.0219)
exceeds 709 km, so it is not approximately 650 km.  (The two validity
verdicts themselves match the claim.) -/
theorem claim6_distance_counterexample :
    (13.1 < calculate_distance STATION_LAT STATION_LON (-12.0653) (-75.2049)
      ∧ calculate_distance STATION_LAT STATION_LON (-12.0653) (-75.2049) < 13.2)
    ∧ 709 < calculate_distance STATION_LAT STATION_LON (-15.8402) (-70.0219) :=
  ⟨dist_huancayo_bounds, dist_puno_bounds.1⟩

/-- C6 (amended): location validation computes the great-circle distance
from the Huayao station by the haversine formula (R = 6371 km, atan2 form)
and accepts exactly when that distance is at most the 50 km radius
(inclusive boundary); the point (−12.0653, −75.2049) is valid at
approximately 13.17 km (not 10.9 km), and the point (−15.8402, −70.0219) is
invalid at approximately 711 km (not 650 km). -/
theorem claim6_geofence_validation :
    (∀ lat lon : ℝ,
      (validate_location lat lon).distance_km
          = calculate_distance STATION_LAT STATION_LON lat lon
      ∧ ((validate_location lat lon).is_valid ↔
          calculate_distance STATION_LAT STATION_LON lat lon ≤ VALID_RADIUS_KM))
    ∧ ((validate_location (-12.0653) (-75.2049)).is_valid
        ∧ 13.1 < (validate_location (-12.0653) (-75.2049)).distance_km
        ∧ (validate_location (-12.0653) (-75.2049)).distance_km < 13.2)
    ∧ (¬ (validate_location (-15.8402) (-70.0219)).is_valid
        ∧ 709 < (validate_location (-15.8402) (-70.0219)).distance_km
        ∧ (validate_location (-15.8402) (-70.0219)).distance_km < 713) := by
  refine ⟨fun lat lon => ⟨rfl, Iff.rfl⟩, ⟨?_, ?_, ?_⟩, ⟨?_, ?_, ?_⟩⟩
  · show calculate_distance STATION_LAT STATION_LON (-12.0653) (-75.2049) ≤ VALID_RADIUS_KM
    rw [show VALID_RADIUS_KM = (50 : ℝ) from rfl]
    linarith [dist_huancayo_bounds.2]
  · exact dist_huancayo_bounds.1
  · exact dist_huancayo_bounds.2
  · show ¬ calculate_distance STATION_LAT STATION_LON (-15.8402) (-70.0219) ≤ VALID_RADIUS_KM
    rw [show VALID_RADIUS_KM = (50 : ℝ) from rfl]
    push_neg
    linarith [dist_puno_bounds.1]
  · exact dist_puno_bounds.1
  · exact dist_puno_bounds.2

/-- C7: for an available prediction, the rich (emoji) rendering is built
first and is the chosen output when its length is at most 160 characters;
when it exceeds 160 the plain (no-emoji) rendering is chosen instead. -/
theorem claim7_tier_selection (p : AlertPayload) (hp : p.prediction_available = true) :
    ((build_prediction_message_minimal p).length ≤ 160 →
        choose_alert_message p = build_prediction_message_minimal p)
    ∧ (160 < (build_prediction_message_minimal p).length →
        choose_alert_message p = build_prediction_message_no_emoji p) := by
  constructor
  · intro hle
    simp [choose_alert_message, hp, not_lt.mpr hle]
  · intro hgt
    simp [choose_alert_message, hp, hgt]

/-- Witness for C7 at a small payload whose rich rendering is 54 chars. -/
theorem claim7_tier_selection_witness :
    pShort.prediction_available = true
    ∧ (build_prediction_message_minimal pShort).length ≤ 160
    ∧ choose_alert_message pShort = build_prediction_message_minimal pShort := by
  refine ⟨rfl, by decide, ?_⟩
  exact (claim7_tier_selection pShort rfl).1 (by decide)

/-- C8 counterexample: for an admitted request with an empty prior history,
current `HR = 5` and a new observation with `HR = 99`, the pipeline records
the observation first (step 3) and synthesizes the lag features afterwards
(step 4), so the emitted horizon-6 lag feature is the just-recorded `99`;
the snapshot-then-append order the claim describes would have emitted the
current value `5`. -/
theorem claim8_snapshot_counterexample :
    ((predict_pipeline [] [("HR", 99)] [("HR", 5)]).2).lookup "HR_lag_6h" = some 99
    ∧ (prepare_features_with_lags [("HR", 5)] []).lookup "HR_lag_6h" = some 5
    ∧ ¬ ((predict_pipeline [] [("HR", 99)] [("HR", 5)]).2).lookup "HR_lag_6h"
        = (prepare_features_with_lags [("HR", 5)] []).lookup "HR_lag_6h" := by
  decide

/-- C8 (amended): the pipeline appends the new observation to the location's
history first and only then synthesizes the lag features, from the updated
history — so the features can include the request's own just-recorded
observation; in particular, when no prior history exists every lag feature
falls back to the just-recorded entry's value, not to the pre-append
snapshot. -/
theorem claim8_append_before_synthesis (hist : List WDict) (entry cd : WDict)
    (h : Nat) (v : String) (hh : h ∈ lagHorizons) (hv : v ∈ lagVars) :
    (predict_pipeline hist entry cd).2
      = prepare_features_with_lags cd (store_weather_data hist entry)
    ∧ (hist = [] →
        ((predict_pipeline hist entry cd).2).lookup (lagKey v h)
          = some (dictGet entry v (dictGet cd v 0))) := by
  constructor
  · rfl
  · intro hnil
    subst hnil
    have key := prepare_features_lookup cd [entry] h v hh hv
    have hpipe : (predict_pipeline [] entry cd).2 = prepare_features_with_lags cd [entry] := rfl
    rw [hpipe, key]
    have hn : ¬ h ≤ ([entry] : List WDict).length := by
      fin_cases hh <;> simp
    rw [if_neg hn]
    rfl

/-- Witness for C8 (amended) at the counterexample inputs. -/
theorem claim8_append_before_synthesis_witness :
    ((predict_pipeline [] [("HR", 99)] [("HR", 5)]).2
        = prepare_features_with_lags [("HR", 5)] (store_weather_data [] [("HR", 99)]))
    ∧ (((predict_pipeline [] [("HR", 99)] [("HR", 5)]).2).lookup (lagKey "HR" 6)
        = some (dictGet [("HR", 99)] "HR" (dictGet [("HR", 5)] "HR" 0))) := by
  have t := claim8_append_before_synthesis [] [("HR", 99)] [("HR", 5)] 6 "HR"
    (by decide) (by decide)
  exact ⟨t.1, t.2 rfl⟩

/-- C3 counterexample: a payload whose advisory classification is a
1700-character string makes even the plain (no-emoji) rendering exceed 1600
characters, and `send_frost_alert` selects it unchanged — the chosen
rendering is longer than 1600 characters, with no truncation. -/
theorem claim3_budget_counterexample :
    pOversize.prediction_available = true
    ∧ 1600 < (choose_alert_message pOversize).length :=
  ⟨rfl, pOversize_overflow⟩

/-- C3 (amended): for every alert payload — available-prediction and
out-of-coverage alike — the compactor enforces only the 160-character tier
switch: the chosen rendering is the rich (emoji) rendering of that payload
kind at its full length when that is at most 160 characters, and the plain
(no-emoji) rendering at its full length otherwise; no 1600-character
truncation exists — a payload whose plain rendering exceeds 1600 characters
is selected, and sent, over-length. -/
theorem claim3_no_truncation (p : AlertPayload) :
    (choose_alert_message p =
      (if (if p.prediction_available then build_prediction_message_minimal p
           else build_unavailable_message_minimal p).length ≤ 160
       then (if p.prediction_available then build_prediction_message_minimal p
             else build_unavailable_message_minimal p)
       else (if p.prediction_available then build_prediction_message_no_emoji p
             else build_unavailable_message_no_emoji p)))
    ∧ 1600 < (choose_alert_message pOversize).length := by
  constructor
  · have h1 : choose_alert_message p =
        (if 160 < (if p.prediction_available then build_prediction_message_minimal p
                   else build_unavailable_message_minimal p).length
         then (if p.prediction_available then build_prediction_message_no_emoji p
               else build_unavailable_message_no_emoji p)
         else (if p.prediction_available then build_prediction_message_minimal p
               else build_unavailable_message_minimal p)) := rfl
    rw [h1]
    by_cases h : (if p.prediction_available then build_prediction_message_minimal p
                  else build_unavailable_message_minimal p).length ≤ 160
    · rw [if_pos h, if_neg (by omega)]
    · rw [if_neg h, if_pos (by omega)]
  · exact pOversize_overflow

/-- C9: both coordinate-guarded endpoints return the 400 error
`Latitud y longitud requeridas` whenever either coordinate is Python-falsy —
including the well-formed coordinate value `0` — without reaching the
geofence validation; only requests with two truthy coordinates proceed to
`validate_location`. -/
theorem claim9_falsy_coordinate_guard (latitude longitude : Option ℚ) :
    ((pyTruthy latitude = false ∨ pyTruthy longitude = false) →
      validate_location_endpoint latitude longitude
        = GuardResp.badRequest "Latitud y longitud requeridas"
      ∧ predict_enhanced_v2_guard latitude longitude
        = GuardResp.badRequest "Latitud y longitud requeridas")
    ∧ (pyTruthy (some 0) = false ∧ pyTruthy none = false)
    ∧ (pyTruthy latitude = true → pyTruthy longitude = true →
      validate_location_endpoint latitude longitude
        = GuardResp.proceed
            (validate_location ((latitude.getD 0 : ℚ) : ℝ) ((longitude.getD 0 : ℚ) : ℝ))
      ∧ predict_enhanced_v2_guard latitude longitude
        = GuardResp.proceed
            (validate_location ((latitude.getD 0 : ℚ) : ℝ) ((longitude.getD 0 : ℚ) : ℝ))) := by
  refine ⟨?_, ⟨by decide, rfl⟩, ?_⟩
  · intro hf
    have hcond : (pyTruthy latitude && pyTruthy longitude) = false := by
      rcases hf with h | h <;> simp [h]
    constructor <;>
      simp [validate_location_endpoint, predict_enhanced_v2_guard, hcond]
  · intro h1 h2
    constructor <;>
      simp [validate_location_endpoint, predict_enhanced_v2_guard, h1, h2]

/-- Witness for C9 at latitude `0` (a well-formed coordinate). -/
theorem claim9_falsy_coordinate_guard_witness :
    (pyTruthy (some (0 : ℚ)) = false ∨ pyTruthy (some (1 : ℚ)) = false)
    ∧ validate_location_endpoint (some 0) (some 1)
        = GuardResp.badRequest "Latitud y longitud requeridas"
    ∧ predict_enhanced_v2_guard (some 0) (some 1)
        = GuardResp.badRequest "Latitud y longitud requeridas" := by
  have t := (claim9_falsy_coordinate_guard (some (0 : ℚ)) (some 1)).1 (Or.inl (by decide))
  exact ⟨Or.inl (by decide), t.1, t.2⟩

/-- C10: `SMSService` defines no `_build_prediction_message_short` or
`_build_unavailable_message_short` method, so for every request to
`/api/test-sms-length` carrying prediction data the attribute lookup raises
`AttributeError`, the blanket handler turns it into an HTTP 500 error
response, and no length report is ever produced. -/
theorem claim10_test_sms_length_500 (p : AlertPayload) :
    test_sms_length (some p) =
      SmsLenResp.httpError 500
        ("AttributeError: SMSService object has no attribute " ++
          (if p.prediction_available then "_build_prediction_message_short"
           else "_build_unavailable_message_short"))
    ∧ ("_build_prediction_message_short" ∉ smsServiceMethodNames
        ∧ "_build_unavailable_message_short" ∉ smsServiceMethodNames) := by
  refine ⟨?_, by decide, by decide⟩
  have e1 : smsServiceAttr "_build_prediction_message_short" = none := rfl
  have e2 : smsServiceAttr "_build_unavailable_message_short" = none := rfl
  cases hp : p.prediction_available <;>
    simp [test_sms_length, hp, e1, e2]

end WayraFrost
